import Mathlib

/-!
Shallow embedding of the Community-Chatbot repository, a Telegram assistant
that manages personal expenses (Google Sheets) and calendar events (Google
Calendar), with free-text understanding delegated to an OpenAI model.

Time is modelled on a linear timeline of minutes counted from a Monday 00:00
epoch, so that `minutes / 1440` is the calendar day index and
`(minutes / 1440) % 7` is exactly the Python `datetime.weekday()` value
(Monday = 0).  Calendar month and year are carried as explicit fields of a
date, because a linear day index does not determine them without full
calendar arithmetic; the code only ever compares these fields
(`dt.month == now.month`, `dt.year == now.year`), and so does the embedding.

Effectful boundaries (Google/OpenAI reachability, the text the language model
replies) are passed in as explicit parameters, so every function here is pure
and executable.
-/

/-- config.py: the fixed expense category set `EXPENSE_CATEGORIES`. -/
def EXPENSE_CATEGORIES : List String :=
  ["Alimentari", "Trasporti", "Casa", "Bollette", "Salute",
   "Intrattenimento", "Abbigliamento", "Regali", "Altro"]

/-- Calendar date of an expense row, as parsed by
`pd.to_datetime(df[Data], format=dd/mm/YYYY)`: a date carries no time of
day, so on the linear timeline it sits at minute `day * 1440` (midnight).
`month` and `year` are the calendar fields of that same date. -/
structure DateT where
  day : Nat
  month : Nat
  year : Nat
deriving DecidableEq, Repr

/-- Result of `datetime.datetime.now()`: a full timestamp (minutes since the
Monday-00:00 epoch) together with its calendar month and year fields. -/
structure NowT where
  minutes : Nat
  month : Nat
  year : Nat
deriving DecidableEq, Repr

/-- One record of the expense worksheet: columns Data, Importo, Categoria,
Descrizione.  The amount is an integer count of cents; the claims never
inspect arithmetic on amounts, only row membership and messages. -/
structure ExpenseRow where
  date : DateT
  importo : Int
  categoria : String
  descrizione : String
deriving DecidableEq, Repr

/-- Python `now.weekday()`: Monday = 0 ... Sunday = 6. -/
def weekday (now : NowT) : Nat := now.minutes / 1440 % 7

/-- sheets_manager.py line 165: `start_of_week = now -
datetime.timedelta(days=now.weekday())`.  Note this keeps the time of day of
`now`; it is the most recent Monday at `now`'s own clock time, not at
midnight. -/
def startOfWeek (now : NowT) : Nat := now.minutes - weekday now * 1440

/-- sheets_manager.py line 166: the row predicate of
`df[df[Data] >= start_of_week]`.  A row's timestamp is its date at
midnight, `day * 1440`. -/
def weekFilterPred (now : NowT) (r : ExpenseRow) : Bool :=
  decide (startOfWeek now ≤ r.date.day * 1440)

/-- sheets_manager.py lines 160-176: the date-window filter of
`get_expense_report`, one branch per period.  `month` applies the two
successive filters on `dt.month` and `dt.year`; the final `else` is
period `all` and keeps every row. -/
def periodFilter (rows : List ExpenseRow) (now : NowT) (period : String) :
    List ExpenseRow :=
  if period = "day" then rows.filter (fun r => r.date.day == now.minutes / 1440)
  else if period = "week" then rows.filter (weekFilterPred now)
  else if period = "month" then
    rows.filter (fun r => r.date.month == now.month && r.date.year == now.year)
  else if period = "year" then rows.filter (fun r => r.date.year == now.year)
  else rows

/-- sheets_manager.py lines 160-176: the `period_text` chosen alongside the
date filter. -/
def periodText (period : String) : String :=
  if period = "day" then "oggi"
  else if period = "week" then "questa settimana"
  else if period = "month" then "questo mese"
  else if period = "year" then "quest\x27anno"
  else "totali"

/-- The one invalid-category message, used verbatim at sheets_manager.py
lines 102 and 181. -/
def invalidCategoryMsg : String :=
  "Categoria non valida. Categorie disponibili: " ++
    String.intercalate ", " EXPENSE_CATEGORIES

/-- sheets_manager.add_expense (lines 89-127).  `sheetOk` stands for the
spreadsheet service being reachable.  main.py always passes the float it
already parsed, so the `float(amount)` conversion never fails and is not a
separate branch here; the appended row itself is a spreadsheet side effect
outside the returned value. -/
def add_expense (sheetOk : Bool) (amount : Int) (category : String)
    (_description : String) : Bool × String :=
  if category ∈ EXPENSE_CATEGORIES then
    if !sheetOk then (false, "Impossibile accedere al foglio delle spese.")
    else (true, "Spesa di " ++ toString amount ++
      "€ aggiunta nella categoria \x27" ++ category ++ "\x27.")
  else (false, invalidCategoryMsg)

/-- sheets_manager.py line 194: `df.groupby(Categoria)[Importo].sum()`.
pandas sorts the group keys; no claim inspects the breakdown order, so the
embedding lists the distinct categories in traversal order. -/
def categoryTotals (df : List ExpenseRow) : List (String × Int) :=
  ((df.map (fun r => r.categoria)).dedup).map
    (fun c => (c, ((df.filter (fun r => r.categoria == c)).map
      (fun r => r.importo)).sum))

/-- sheets_manager.py lines 190-203: the success-path report body.  The
two-decimal float rendering of pandas is abstracted to `toString` of the
integer amounts; no claim inspects this text. -/
def reportText (pt ct : String) (catFilter : Bool) (df : List ExpenseRow) :
    String :=
  let total := (df.map (fun r => r.importo)).sum
  let base := "📊 *Report spese " ++ pt ++ ct ++ "*\n\n" ++
    "Totale: " ++ toString total ++ "€\n\n"
  if catFilter then base
  else base ++ "*Dettaglio per categoria:*\n" ++
    String.join ((categoryTotals df).map
      (fun p => "- " ++ p.1 ++ ": " ++ toString p.2 ++ "€\n"))

/-- sheets_manager.get_expense_report (lines 129-208).  `rows` is what
`worksheet.get_all_records()` returned; the empty-worksheet early return
(lines 150-151) precedes every filter and the category validation.
`if category:` is Python truthiness, so `None` and `""` both skip the
category branch entirely (no validation, no filter). -/
def get_expense_report (sheetOk : Bool) (rows : List ExpenseRow) (now : NowT)
    (period : String) (category : Option String) : Bool × String :=
  if !sheetOk then (false, "Impossibile accedere al foglio delle spese.")
  else if rows.isEmpty then (true, "Nessuna spesa registrata.")
  else
    let df := periodFilter rows now period
    let pt := periodText period
    match category with
    | none =>
        if df.isEmpty then (true, "Nessuna spesa " ++ pt ++ ".")
        else (true, reportText pt "" false df)
    | some cat =>
        if cat = "" then
          if df.isEmpty then (true, "Nessuna spesa " ++ pt ++ ".")
          else (true, reportText pt "" false df)
        else if cat ∈ EXPENSE_CATEGORIES then
          let df2 := df.filter (fun r => r.categoria == cat)
          let ct := " nella categoria \x27" ++ cat ++ "\x27"
          if df2.isEmpty then (true, "Nessuna spesa " ++ pt ++ ct ++ ".")
          else (true, reportText pt ct true df2)
        else (false, invalidCategoryMsg)

/-- Calendar day of the most recent Monday, at 00:00, on the linear
timeline. -/
def mostRecentMondayStart (now : NowT) : Nat :=
  (now.minutes / 1440 - weekday now) * 1440

/-- Modelled from the spec: the window "from the most recent Monday at 00:00
up to now" that claim C1 asserts the week report uses, stated over the same
row timestamps the code filters on. -/
def claimWeekWindow (now : NowT) (r : ExpenseRow) : Bool :=
  decide (mostRecentMondayStart now ≤ r.date.day * 1440 ∧
    r.date.day * 1440 ≤ now.minutes)

/-- Claim C1, counterexample.  Take now = Wednesday 15:30 of the epoch week
(minute 3810) and a row dated that week's Monday (day 0).  The claimed
window [Monday 00:00, now] contains the row, but the code's week filter
compares against `now - timedelta(days=now.weekday())`, which is Monday at
15:30, so the Monday-dated row is dropped from the report. -/
theorem week_monday_row_cex :
    claimWeekWindow ⟨3810, 1, 2024⟩ ⟨⟨0, 1, 2024⟩, 1250, "Altro", ""⟩ = true
    ∧ periodFilter [⟨⟨0, 1, 2024⟩, 1250, "Altro", ""⟩] ⟨3810, 1, 2024⟩ "week"
      = [] := by
  decide

/-- Claim C1, amended: `report(period="week")` keeps exactly the rows whose
date (at midnight) is at or after `now` minus `weekday(now)` days — the most
recent Monday at `now`'s own time of day, with no upper bound.  Hence a row
dated the Sunday before that Monday is always excluded, and a row dated that
Monday itself is included only when `now` is exactly midnight. -/
theorem week_filter_characterization (now : NowT) (rows : List ExpenseRow)
    (r : ExpenseRow) :
    (r ∈ periodFilter rows now "week" ↔
      r ∈ rows ∧ startOfWeek now ≤ r.date.day * 1440)
    ∧ (r.date.day + 1 = now.minutes / 1440 - weekday now →
        weekFilterPred now r = false)
    ∧ (r.date.day = now.minutes / 1440 - weekday now →
        (weekFilterPred now r = true ↔ now.minutes % 1440 = 0)) := by
  have hpf : periodFilter rows now "week" = rows.filter (weekFilterPred now) := rfl
  refine ⟨?_, ?_, ?_⟩
  · rw [hpf, List.mem_filter]
    simp [weekFilterPred]
  · intro h
    simp only [weekFilterPred, startOfWeek, weekday, decide_eq_false_iff_not,
      not_le] at h ⊢
    omega
  · intro h
    simp only [weekFilterPred, startOfWeek, weekday, decide_eq_true_eq] at h ⊢
    omega

/-- Claim C3, counterexample.  Two category strings outside the configured
set for which `report` does not reject: any invalid category on an empty
worksheet (the empty-ledger early return precedes validation), and the empty
string on a non-empty worksheet (`if category:` is falsy, so validation is
skipped and the unfiltered report is returned). -/
theorem invalid_category_cex :
    get_expense_report true [] ⟨0, 1, 2024⟩ "month" (some "Benzina")
      = (true, "Nessuna spesa registrata.")
    ∧ (get_expense_report true [⟨⟨0, 1, 2024⟩, 1000, "Altro", "x"⟩]
        ⟨0, 1, 2024⟩ "all" (some "")).1 = true
    ∧ ("Benzina" ∉ EXPENSE_CATEGORIES) ∧ ("" ∉ EXPENSE_CATEGORIES) := by
  decide

/-- Claim C3, amended: for every non-empty category string outside the
configured set, `add_expense` rejects, and `get_expense_report` on a
worksheet holding at least one record rejects, both with the identical
invalid-category message listing the valid set.  (An empty-string category
is rejected by `add_expense` but treated as "no filter" by the report, and
an empty worksheet returns its empty-report success before validating.) -/
theorem invalid_category_rejected (cat : String)
    (hcat : cat ∉ EXPENSE_CATEGORIES) (hne : cat ≠ "") (sheetOk : Bool)
    (amount : Int) (descr : String) (rows : List ExpenseRow)
    (hrows : rows ≠ []) (now : NowT) (period : String) :
    add_expense sheetOk amount cat descr = (false, invalidCategoryMsg)
    ∧ get_expense_report true rows now period (some cat)
      = (false, invalidCategoryMsg) := by
  constructor
  · simp [add_expense, hcat]
  · have hr : rows.isEmpty = false := by
      cases rows with
      | nil => exact absurd rfl hrows
      | cons a l => rfl
    simp [get_expense_report, hr, hne, hcat]

/-- Claim C3, witness: the amended theorem at the concrete category
"Benzina" and a one-row ledger. -/
theorem invalid_category_rejected_witness :
    add_expense true 1250 "Benzina" "" = (false, invalidCategoryMsg)
    ∧ get_expense_report true [⟨⟨0, 1, 2024⟩, 1000, "Altro", ""⟩]
        ⟨0, 1, 2024⟩ "all" (some "Benzina") = (false, invalidCategoryMsg) :=
  invalid_category_rejected "Benzina" (by decide) (by decide) true 1250 ""
    [⟨⟨0, 1, 2024⟩, 1000, "Altro", ""⟩] (by decide) ⟨0, 1, 2024⟩ "all"

/-- Claim C9: with no records in the worksheet, the report is the successful
"no expenses recorded" text for every period and every category argument,
the invalid ones included, because the empty-ledger return at lines 150-151
precedes the category validation at lines 179-181. -/
theorem report_empty_ledger (now : NowT) (period : String)
    (category : Option String) :
    get_expense_report true [] now period category
      = (true, "Nessuna spesa registrata.") := by
  simp [get_expense_report]

/-- A Google Calendar event body as calendar_manager.update_event reads and
rewrites it: the summary/description/location strings and the two
`dateTime` fields (minutes on the linear timeline). -/
structure GEvent where
  summary : String
  description : String
  location : String
  start : Nat
  endT : Nat
deriving DecidableEq, Repr

/-- calendar_manager.update_event, lines 133-147: the field merge applied to
the fetched event before it is written back.  `if summary:` and
`if start_time:` / `if end_time:` are Python truthiness tests — an empty
summary string is falsy and a datetime object never is — while description
and location use `is not None`.  Absent arguments are `none`. -/
def update_event_apply (e : GEvent) (summary : Option String)
    (start_time end_time : Option Nat) (description location : Option String) :
    GEvent :=
  let e := match summary with
    | some s => if s = "" then e else { e with summary := s }
    | none => e
  let e := match description with
    | some s => { e with description := s }
    | none => e
  let e := match location with
    | some s => { e with location := s }
    | none => e
  let e := match start_time with
    | some t => { e with start := t }
    | none => e
  let e := match end_time with
    | some t => { e with endT := t }
    | none => e
  e

/-- Claim C2, counterexample.  An update directive carrying summary = ""
(present, empty) leaves the event summary at its prior value "old": the
`if summary:` truthiness test treats the present-but-empty field exactly
like an absent one, contradicting "present (even if an empty string) is
applied". -/
theorem update_empty_summary_cex :
    (update_event_apply ⟨"old", "d", "l", 0, 60⟩ (some "") none none none
      none).summary = "old"
    ∧ (update_event_apply ⟨"old", "d", "l", 0, 60⟩ (some "") none none none
      none).summary ≠ "" := by
  decide

/-- Claim C2, amended: absent fields leave every event field unchanged; a
present description or location is applied even when empty; a present start
or end time is always applied; but a present summary is applied only when
non-empty — an empty-string summary is treated like an absent one and the
prior summary survives. -/
theorem update_event_field_semantics (e : GEvent) (su : Option String)
    (st en : Option Nat) (de lo : Option String) :
    (update_event_apply e su st en de lo).summary
      = (match su with
         | none => e.summary
         | some s => if s = "" then e.summary else s)
    ∧ (update_event_apply e su st en de lo).description = de.getD e.description
    ∧ (update_event_apply e su st en de lo).location = lo.getD e.location
    ∧ (update_event_apply e su st en de lo).start = st.getD e.start
    ∧ (update_event_apply e su st en de lo).endT = en.getD e.endT := by
  cases su <;> cases st <;> cases en <;> cases de <;> cases lo <;>
    simp [update_event_apply] <;> split <;> simp_all

/-- calendar_manager.create_event, lines 74-75: the end time actually sent
to the calendar backend — the argument when one is given, start + 1 hour
(60 minutes) when `end_time is None`. -/
def create_event_endTime (start_time : Nat) (end_time : Option Nat) : Nat :=
  match end_time with
  | none => start_time + 60
  | some t => t

/-- The JSON object nlp_processor.parse_event_request reads from the model
reply: the five keys the system prompt requests, each possibly null.
`none` at the outer level stands for a reply with no valid JSON
(`json.JSONDecodeError`). -/
structure RawEventJson where
  summary : Option String
  start_time : Option String
  end_time : Option String
  location : Option String
  description : Option String
deriving DecidableEq, Repr

/-- The event record parse_event_request hands back on success: times are
minutes on the linear timeline after `dateutil` parsing and Rome
localization. -/
structure EventData where
  summary : String
  start_time : Nat
  end_time : Nat
  location : String
  description : String
deriving DecidableEq, Repr, Inhabited

/-- Python truthiness of `event_data.get(key)` for a string-or-null field:
falsy when the key is null or the empty string. -/
def truthyStr : Option String → Bool
  | none => false
  | some s => !(s == "")

/-- nlp_processor.parse_event_request (lines 34-127).  `clientOk` is the
OpenAI client being constructible, `parseDate` models `dateutil.parser.parse`
(`none` = the parse raised), `raw` the JSON object found in the reply
(`none` = no valid JSON).  The exception text appended to the start-time
error message is abstracted away.  A falsy (missing or unparsable) end time
becomes start + 60 minutes. -/
def parse_event_request (clientOk : Bool) (parseDate : String → Option Nat)
    (raw : Option RawEventJson) : Sum String EventData :=
  if !clientOk then
    .inl "Impossibile accedere al servizio OpenAI. Verifica la chiave API."
  else match raw with
  | none =>
    .inl "Errore nel parsing della risposta. Riprova con una richiesta più chiara."
  | some r =>
    if !truthyStr r.summary then
      .inl "Non è stato possibile identificare il titolo dell\x27evento."
    else if !truthyStr r.start_time then
      .inl "Non è stato possibile identificare la data e l\x27ora dell\x27evento."
    else
      match parseDate (r.start_time.getD "") with
      | none => .inl "Errore nel parsing della data di inizio."
      | some st =>
        .inr ⟨r.summary.getD "", st,
          (match r.end_time with
           | some s => if s = "" then st + 60 else (parseDate s).getD (st + 60)
           | none => st + 60),
          r.location.getD "", r.description.getD ""⟩

/-- Claim C5: whenever the extracted end time is absent, empty or fails to
parse, the event data handed on has end = start + 1 hour exactly (hence
end ≥ start); and create_event itself sends start + 1 hour to the backend
whenever it is called with `end_time=None`. -/
theorem event_end_defaults (clientOk : Bool) (parseDate : String → Option Nat)
    (raw : RawEventJson) (d : EventData) (start_time : Nat)
    (hend : raw.end_time = none ∨ raw.end_time = some "" ∨
      ∀ s, raw.end_time = some s → parseDate s = none)
    (hok : parse_event_request clientOk parseDate (some raw) = .inr d) :
    d.end_time = d.start_time + 60 ∧ d.start_time ≤ d.end_time
    ∧ create_event_endTime start_time none = start_time + 60
    ∧ start_time ≤ create_event_endTime start_time none := by
  have h : d.end_time = d.start_time + 60 := by
    simp only [parse_event_request] at hok
    split at hok
    · simp at hok
    split at hok
    · simp at hok
    split at hok
    · simp at hok
    split at hok
    · simp at hok
    obtain rfl : _ = d := Sum.inr.inj hok
    rcases hend with hn | he | hf
    · simp [hn]
    · simp [he]
    · cases hre : raw.end_time with
      | none => simp
      | some s =>
        have hps := hf s hre
        by_cases hs : s = "" <;> simp [hre, hps, hs]
  exact ⟨h, by omega, rfl, Nat.le_add_right _ _⟩

/-- Claim C5, witness: extraction with summary "riunione", a start that
parses to minute 900 and no end time yields end 960 = 900 + 60. -/
theorem event_end_defaults_witness :
    (⟨"riunione", 900, 960, "", ""⟩ : EventData).end_time
      = (⟨"riunione", 900, 960, "", ""⟩ : EventData).start_time + 60
    ∧ (⟨"riunione", 900, 960, "", ""⟩ : EventData).start_time
      ≤ (⟨"riunione", 900, 960, "", ""⟩ : EventData).end_time
    ∧ create_event_endTime 900 none = 900 + 60
    ∧ 900 ≤ create_event_endTime 900 none :=
  event_end_defaults true
    (fun s => if s = "domani 15" then some 900 else none)
    ⟨some "riunione", some "domani 15", none, none, none⟩
    ⟨"riunione", 900, 960, "", ""⟩ 900 (Or.inl rfl) rfl

/-- The JSON object nlp_processor.parse_event_update_request reads: every
field nullable ("solo se menzionate nel testo"). -/
structure RawUpdate where
  summary : Option String
  start_time : Option String
  end_time : Option String
  location : Option String
  description : Option String
deriving DecidableEq, Repr

/-- A processed time field of the update dictionary: either still the raw
falsy string the JSON held (only "" is reachable) or a parsed timestamp. -/
inductive TimeField where
  | raw (s : String)
  | parsed (t : Nat)
deriving DecidableEq, Repr

/-- The update dictionary parse_event_update_request returns on success,
with the event id added; `none` in a field means unspecified (leave
unchanged downstream). -/
structure UpdateDirective where
  event_id : String
  summary : Option String
  start_time : Option TimeField
  end_time : Option TimeField
  location : Option String
  description : Option String
deriving DecidableEq, Repr

/-- nlp_processor.py line 185: `all(value is None for value in
update_data.values())`. -/
def allNoneUpdate (r : RawUpdate) : Bool :=
  r.summary.isNone && r.start_time.isNone && r.end_time.isNone &&
    r.location.isNone && r.description.isNone

/-- nlp_processor.py lines 199-208: the new end-time field after processing.
Falsy values (null, "") are left as they are; a truthy value that fails to
parse sets the field to None — dropped, not defaulted. -/
def endField (parseDate : String → Option Nat) (e : Option String) :
    Option TimeField :=
  match e with
  | none => none
  | some s =>
    if s = "" then some (.raw s)
    else match parseDate s with
      | some t => some (.parsed t)
      | none => none

/-- nlp_processor.parse_event_update_request (lines 129-218).  The all-None
check precedes any parsing; an unparsable truthy start time is an early
error return (so the end field is never processed on that path); an
unparsable truthy end time is dropped via `endField`. -/
def parse_event_update_request (clientOk : Bool)
    (parseDate : String → Option Nat) (raw : Option RawUpdate)
    (event_id : String) : Sum String UpdateDirective :=
  if !clientOk then
    .inl "Impossibile accedere al servizio OpenAI. Verifica la chiave API."
  else match raw with
  | none =>
    .inl "Errore nel parsing della risposta. Riprova con una richiesta più chiara."
  | some r =>
    if allNoneUpdate r then
      .inl "Non è stato possibile identificare alcuna modifica da apportare all\x27evento."
    else
      match r.start_time with
      | none =>
        .inr ⟨event_id, r.summary, none, endField parseDate r.end_time,
          r.location, r.description⟩
      | some s =>
        if s = "" then
          .inr ⟨event_id, r.summary, some (.raw s),
            endField parseDate r.end_time, r.location, r.description⟩
        else match parseDate s with
          | some t =>
            .inr ⟨event_id, r.summary, some (.parsed t),
              endField parseDate r.end_time, r.location, r.description⟩
          | none => .inl "Errore nel parsing della nuova data di inizio."

/-- Claim C8: an update extraction in which every field is null is the
"nothing to change" failure; a present but unparsable new end time is
dropped (the directive's end field is unspecified, not defaulted); a present
but unparsable new start time is the start-parse failure. -/
theorem update_extractor_edge_cases (parseDate : String → Option Nat)
    (eid : String) (r2 : RawUpdate) (es : String) (d2 : UpdateDirective)
    (h2a : r2.end_time = some es) (h2b : es ≠ "") (h2c : parseDate es = none)
    (h2d : parse_event_update_request true parseDate (some r2) eid = .inr d2)
    (r3 : RawUpdate) (ss : String)
    (h3a : r3.start_time = some ss) (h3b : ss ≠ "") (h3c : parseDate ss = none)
    (h3d : allNoneUpdate r3 = false) :
    parse_event_update_request true parseDate
        (some ⟨none, none, none, none, none⟩) eid
      = .inl "Non è stato possibile identificare alcuna modifica da apportare all\x27evento."
    ∧ d2.end_time = none
    ∧ parse_event_update_request true parseDate (some r3) eid
      = .inl "Errore nel parsing della nuova data di inizio." := by
  refine ⟨rfl, ?_, ?_⟩
  · have hef : endField parseDate r2.end_time = none := by
      rw [h2a]
      simp [endField, h2b, h2c]
    simp only [parse_event_update_request] at h2d
    split at h2d
    · simp at h2d
    split at h2d
    · simp at h2d
    split at h2d
    · obtain rfl : _ = d2 := Sum.inr.inj h2d
      exact hef
    split at h2d
    · obtain rfl : _ = d2 := Sum.inr.inj h2d
      exact hef
    split at h2d
    · obtain rfl : _ = d2 := Sum.inr.inj h2d
      exact hef
    · simp at h2d
  · simp only [parse_event_update_request]
    rw [if_neg (by simp), if_neg (by simp [h3d])]
    rw [h3a]
    simp [h3b, h3c]

/-- Claim C8, witness: the three edge cases at concrete inputs — an all-null
reply, an update whose end time "x" fails to parse (end field dropped), and
an update whose start time "s" fails to parse (error). -/
theorem update_extractor_edge_cases_witness :
    parse_event_update_request true (fun _ => none)
        (some ⟨none, none, none, none, none⟩) "id1"
      = .inl "Non è stato possibile identificare alcuna modifica da apportare all\x27evento."
    ∧ (⟨"id1", some "t", none, none, none, none⟩ : UpdateDirective).end_time
      = none
    ∧ parse_event_update_request true (fun _ => none)
        (some ⟨none, some "s", none, none, none⟩) "id1"
      = .inl "Errore nel parsing della nuova data di inizio." :=
  update_extractor_edge_cases (fun _ => none) "id1"
    ⟨some "t", none, some "x", none, none⟩ "x"
    ⟨"id1", some "t", none, none, none, none⟩ rfl (by decide) rfl rfl
    ⟨none, some "s", none, none, none⟩ "s" rfl (by decide) rfl rfl

/-- One formatted event of calendar_manager.get_upcoming_events (lines
247-253): the dictionary main.py stores in the session and shows the user. -/
structure EventL where
  id : String
  summary : String
  start : String
  location : String
  description : String
deriving DecidableEq, Repr

/-- The `events` argument of parse_event_deletion_request: either the
formatted list, or the string an upstream failure produced
(`isinstance(events, str)`). -/
inductive EventsArg where
  | ok (events : List EventL)
  | errStr (msg : String)
deriving DecidableEq, Repr

/-- The first maximal run of digit characters, as `re.search(r'\d+', s)`
finds it: scan to the first digit, then take the following digits. -/
def firstDigitRunAux : List Char → Option (List Char)
  | [] => none
  | c :: rest =>
    if c.isDigit then some (c :: rest.takeWhile (fun d => d.isDigit))
    else firstDigitRunAux rest

/-- Decimal value of a digit string, as Python `int` reads it. -/
def digitsToNat (ds : List Char) : Nat :=
  ds.foldl (fun a c => a * 10 + (c.toNat - 48)) 0

/-- nlp_processor.py line 276-278: `re.search(r'\d+', content)` followed by
`int(match.group())`. -/
def firstNumberIn (s : String) : Option Nat :=
  (firstDigitRunAux s.data).map digitsToNat

/-- Python `pat in s` on strings: some position of `s` starts with `pat`. -/
def hasSubstrAux (pat : List Char) : List Char → Bool
  | [] => pat.isEmpty
  | c :: rest => pat.isPrefixOf (c :: rest) || hasSubstrAux pat rest

/-- nlp_processor.parse_event_deletion_request (lines 220-287).  `reply` is
the model reply content after `.strip().lower()`; it is consulted only after
the client check, the error-string pass-through, the empty-list guard and
the "non trovato" test.  An extracted number is range-checked before any
list access. -/
def parse_event_deletion_request (clientOk : Bool) (arg : EventsArg)
    (reply : String) : Bool × String :=
  if !clientOk then
    (false, "Impossibile accedere al servizio OpenAI. Verifica la chiave API.")
  else match arg with
  | .errStr m => (false, m)
  | .ok events =>
    if events.isEmpty then (false, "Non ci sono eventi da eliminare.")
    else if hasSubstrAux "non trovato".data reply.data then
      (false, "Non è stato possibile identificare quale evento eliminare. Prova a essere più specifico.")
    else match firstNumberIn reply with
      | some v =>
        if v = 0 then (false, "Numero evento non valido.")
        else match events.get? (v - 1) with
          | some e => (true, e.id)
          | none => (false, "Numero evento non valido.")
      | none =>
        (false, "Non è stato possibile identificare quale evento eliminare. Prova a essere più specifico.")

/-- main.py line 474: `re.match(r'^(\d+)$', text)` followed by `int(...)`:
the whole text must be digits; the value is its decimal reading. -/
def parseIndexNumeral (s : String) : Option Nat :=
  if s.data ≠ [] ∧ s.data.all Char.isDigit then some (digitsToNat s.data)
  else none

/-- Outcome of the delete-flow selection turn: either proceed to
delete_event_confirmation with a resolved event id, or reply an error and
stay in the selection state. -/
inductive DelOutcome where
  | deleteNow (eventId : String)
  | reprompt (msg : String)
deriving DecidableEq, Repr

/-- main.delete_event_selection (lines 463-493), in the code's priority
order: exact id match over the stored events, then a pure-digits text as a
1-based index with an explicit range guard, then the language-model
resolver. -/
def delete_event_selection (events : List EventL) (text : String)
    (clientOk : Bool) (reply : String) : DelOutcome :=
  match events.find? (fun e => e.id == text) with
  | some e => .deleteNow e.id
  | none =>
    let nlp : DelOutcome :=
      match parse_event_deletion_request clientOk (.ok events) reply with
      | (true, eid) => .deleteNow eid
      | (false, msg) => .reprompt msg
    match parseIndexNumeral text with
    | some n =>
      if h : 1 ≤ n ∧ n ≤ events.length then
        .deleteNow (events.get ⟨n - 1, by omega⟩).id
      else nlp
    | none => nlp

/-- Claim C10: with an empty candidate list the deletion resolver is the
"no events to delete" failure, and an error-string argument is passed back
as the failure message; in both cases the result does not depend on the
model reply at all (the backend is never consulted), whatever the client
state. -/
theorem deletion_resolver_guards (m reply reply2 : String) (clientOk : Bool) :
    parse_event_deletion_request true (.ok []) reply
      = (false, "Non ci sono eventi da eliminare.")
    ∧ parse_event_deletion_request true (.errStr m) reply = (false, m)
    ∧ parse_event_deletion_request clientOk (.ok []) reply
      = parse_event_deletion_request clientOk (.ok []) reply2
    ∧ parse_event_deletion_request clientOk (.errStr m) reply
      = parse_event_deletion_request clientOk (.errStr m) reply2 := by
  refine ⟨rfl, rfl, ?_, ?_⟩ <;> cases clientOk <;> rfl

/-- List.takeWhile keeps an all-digit list whole. -/
theorem takeWhile_all_digits (l : List Char) (h : l.all Char.isDigit = true) :
    l.takeWhile (fun d => d.isDigit) = l := by
  induction l with
  | nil => rfl
  | cons a rest ih =>
    rw [List.all_cons, Bool.and_eq_true] at h
    rw [List.takeWhile_cons, if_pos h.1, ih h.2]

/-- A pattern whose first character does not occur in the text is not a
substring of it. -/
theorem hasSubstrAux_head_not_mem (c : Char) (p l : List Char) (h : c ∉ l) :
    hasSubstrAux (c :: p) l = false := by
  induction l with
  | nil => rfl
  | cons a rest ih =>
    have hca : (c == a) = false := by
      have hne : c ≠ a := fun he => h (he ▸ List.mem_cons_self a rest)
      simpa using hne
    have hcr : c ∉ rest := fun hm => h (List.mem_cons_of_mem a hm)
    unfold hasSubstrAux
    rw [ih hcr]
    simp [List.isPrefixOf, hca]

/-- On an all-digits text, `re.search(r'\d+', ...)` finds the whole text and
reads the same number `re.match(r'^(\d+)$', ...)` read. -/
theorem firstNumberIn_of_digits (s : String) (i : Nat)
    (h : parseIndexNumeral s = some i) : firstNumberIn s = some i := by
  unfold parseIndexNumeral at h
  split at h
  · rename_i hc
    injection h with h
    cases hd : s.data with
    | nil => exact absurd hd hc.1
    | cons a rest =>
      have hall : (a :: rest).all Char.isDigit = true := hd ▸ hc.2
      rw [List.all_cons, Bool.and_eq_true] at hall
      unfold firstNumberIn
      rw [hd]
      simp only [firstDigitRunAux]
      rw [if_pos hall.1, takeWhile_all_digits rest hall.2]
      simp only [Option.map_some']
      rw [← hd, h]
  · exact absurd h (by simp)

/-- Claim C4, counterexample.  First: when a listed event's id is itself the
numeral "2", input "2" resolves to that event (the first) by the id-match
pass, not to the second listed event.  Second: input "5" with only 2 listed
events is not rejected by the flow itself — it falls through to the
language-model resolver, and a reply naming event 1 deletes the first event
instead of reporting a failure. -/
theorem delete_index_cex :
    (delete_event_selection
        [⟨"2", "a", "s1", "", ""⟩, ⟨"xyz", "b", "s2", "", ""⟩] "2" true "boh"
      = DelOutcome.deleteNow "2")
    ∧ (delete_event_selection
        [⟨"2", "a", "s1", "", ""⟩, ⟨"xyz", "b", "s2", "", ""⟩] "2" true "boh"
      ≠ DelOutcome.deleteNow "xyz")
    ∧ (delete_event_selection
        [⟨"aaa", "a", "s1", "", ""⟩, ⟨"bbb", "b", "s2", "", ""⟩] "5" true "1"
      = DelOutcome.deleteNow "aaa") := by
  decide

/-- Claim C4, amended: provided the input text matches no listed event id
(id match has priority) and the listed-events list is non-empty, an
all-digits input read as the numeral i resolves to the i-th listed event's
id whenever 1 ≤ i ≤ n, with an explicit bounds proof — never an
out-of-bounds access; an out-of-range numeral falls through to the
language-model resolver, and when the resolver's reply just echoes the
numeral the outcome is the reported "Numero evento non valido." failure
(or the client-unavailable failure), re-prompting in place. -/
theorem delete_index_resolution (events : List EventL) (text : String)
    (clientOk : Bool) (reply : String) (i : Nat)
    (hne : events ≠ [])
    (hid : ∀ e ∈ events, e.id ≠ text)
    (hnum : parseIndexNumeral text = some i)
    (hecho : reply = text) :
    delete_event_selection events text clientOk reply =
      if h : 1 ≤ i ∧ i ≤ events.length then
        DelOutcome.deleteNow (events.get ⟨i - 1, by omega⟩).id
      else
        DelOutcome.reprompt (if clientOk then "Numero evento non valido."
          else "Impossibile accedere al servizio OpenAI. Verifica la chiave API.") := by
  rw [hecho]
  have hfind : events.find? (fun e => e.id == text) = none := by
    rw [List.find?_eq_none]
    intro e he
    simpa using hid e he
  have hdig : text.data ≠ [] ∧ text.data.all Char.isDigit = true := by
    unfold parseIndexNumeral at hnum
    split at hnum
    · rename_i hc
      exact ⟨hc.1, hc.2⟩
    · exact absurd hnum (by simp)
  have hfn : firstNumberIn text = some i := firstNumberIn_of_digits text i hnum
  have hsub : hasSubstrAux "non trovato".data text.data = false := by
    have hmem : ('n' : Char) ∉ text.data := by
      intro hm
      have := List.all_eq_true.mp hdig.2 _ hm
      exact absurd this (by decide)
    have hpat : "non trovato".data = 'n' :: "on trovato".data := rfl
    rw [hpat]
    exact hasSubstrAux_head_not_mem _ _ _ hmem
  have hie : events.isEmpty = false := by
    cases events with
    | nil => exact absurd rfl hne
    | cons a l => rfl
  simp only [delete_event_selection, hfind, hnum]
  split
  · rfl
  · rename_i hno
    unfold parse_event_deletion_request
    cases clientOk with
    | false => simp
    | true =>
      by_cases hi0 : i = 0
      · subst hi0
        simp [hie, hsub, hfn]
      · have hget : events[i - 1]? = none := List.getElem?_eq_none (by omega)
        simp [hie, hsub, hfn, hi0, hget]

/-- Claim C4, witness: input "2" over two listed events with ids "aaa" and
"bbb" resolves to "bbb", the second listed event's id. -/
theorem delete_index_resolution_witness :
    delete_event_selection
      [⟨"aaa", "a", "s1", "", ""⟩, ⟨"bbb", "b", "s2", "", ""⟩] "2" true "2"
      = DelOutcome.deleteNow "bbb" := by
  have h := delete_index_resolution
    [⟨"aaa", "a", "s1", "", ""⟩, ⟨"bbb", "b", "s2", "", ""⟩] "2" true "2" 2
    (by decide) (by decide) (by decide) rfl
  rw [dif_pos (by decide)] at h
  exact h

/-- main.py line 78: `float(text.replace(',', '.'))` — the pattern is a
single character, so the replacement is a character-wise map. -/
def normalizeAmount (s : String) : String :=
  String.mk (s.data.map (fun c => if c = ',' then '.' else c))

/-- Modelled from the spec: "the same quantity written with a dot
separator" — the amount text with every comma decimal separator replaced by
a dot, the form claim C6 compares against. -/
def dotSeparatorForm (s : String) : String :=
  String.mk (s.data.map (fun c => if c = ',' then '.' else c))

/-- A value held in the per-user `context.user_data` dictionary. -/
inductive SVal where
  | num (x : Int)
  | str (s : String)
  | events (l : List EventL)
  | event (d : EventData)
  | eventL (e : EventL)
deriving DecidableEq, Repr

/-- Dictionary update `user_data[k] = v`. -/
def setUD (ud : List (String × SVal)) (k : String) (v : SVal) :
    List (String × SVal) :=
  (k, v) :: ud.filter (fun p => !(p.1 == k))

/-- Dictionary read `user_data.get(k)`. -/
def lookupUD (ud : List (String × SVal)) (k : String) : Option SVal :=
  (ud.find? (fun p => p.1 == k)).map (fun p => p.2)

/-- Conversation state constants of main.py lines 34-36. -/
def EXPENSE_AMOUNT : Int := 0

/-- Conversation state: awaiting the category selection. -/
def EXPENSE_CATEGORY : Int := 1

/-- Conversation state: free-text changes of the update-event flow. -/
def CALENDAR_EVENT_UPDATE : Int := 1

/-- `ConversationHandler.END`. -/
def CONV_END : Int := -1

/-- main.add_expense_amount (lines 74-100): parse the comma-normalized text
with `float` (the `parseFloat` oracle, value in cents); on success store the
amount and advance to the category state, on `ValueError` re-prompt without
advancing or touching the session. -/
def add_expense_amount_h (parseFloat : String → Option Int)
    (ud : List (String × SVal)) (text : String) :
    List (String × SVal) × Int :=
  match parseFloat (normalizeAmount text) with
  | some a => (setUD ud "expense_amount" (.num a), EXPENSE_CATEGORY)
  | none => (ud, EXPENSE_AMOUNT)

/-- main.cancel (lines 143-149): the `/cancel` fallback registered on all
four conversation flows — reply, clear the whole session, end. -/
def cancel_h (_ud : List (String × SVal)) :
    String × List (String × SVal) × Int :=
  ("Operazione annullata.", [], CONV_END)

/-- main.add_expense_end (lines 126-141): commit the collected fields via
add_expense, reply the adapter's message, then clear the session and end —
on adapter failure exactly as on success.  Fields Python's `.get` would
return as None are modelled by the neutral defaults. -/
def add_expense_end_h (sheetOk : Bool) (ud : List (String × SVal)) :
    String × List (String × SVal) × Int :=
  let amount : Int := match lookupUD ud "expense_amount" with
    | some (.num x) => x
    | _ => 0
  let category : String := match lookupUD ud "expense_category" with
    | some (.str s) => s
    | _ => ""
  let description : String := match lookupUD ud "expense_description" with
    | some (.str s) => s
    | _ => ""
  ((add_expense sheetOk amount category description).2, [], CONV_END)

/-- main.skip_expense_description (lines 116-119): store "" and commit. -/
def skip_expense_description_h (sheetOk : Bool)
    (ud : List (String × SVal)) : String × List (String × SVal) × Int :=
  add_expense_end_h sheetOk (setUD ud "expense_description" (.str ""))

/-- main.add_expense_description (lines 121-124): store the text and
commit. -/
def add_expense_description_h (sheetOk : Bool) (ud : List (String × SVal))
    (text : String) : String × List (String × SVal) × Int :=
  add_expense_end_h sheetOk (setUD ud "expense_description" (.str text))

/-- main.add_event_confirmation (lines 252-288): the confirm/cancel
callback of the add-event flow.  `createRes` is the (success, id-or-error)
pair calendar_manager.create_event returned; the user-facing texts around
it are abbreviated (no claim reads them); cancel, success and adapter
failure all clear the session and end. -/
def add_event_confirmation_h (queryData : String) (createRes : Bool × String)
    (_ud : List (String × SVal)) : String × List (String × SVal) × Int :=
  if queryData = "event_cancel" then
    ("Creazione evento annullata.", [], CONV_END)
  else if createRes.1 then
    ("✅ Evento creato con successo!", [], CONV_END)
  else
    ("❌ Errore nella creazione dell\x27evento: " ++ createRes.2, [], CONV_END)

/-- main.update_event_selection (lines 351-387): cancel clears and ends; a
selection stores the event id, then the matching stored event, and advances
to the changes state; an id matching no stored event ends the conversation
leaving the session as it is (the code has no `clear()` on that path). -/
def update_event_selection_h (queryData : String)
    (ud : List (String × SVal)) : String × List (String × SVal) × Int :=
  if queryData = "event_cancel" then
    ("Modifica evento annullata.", [], CONV_END)
  else
    let event_id := queryData.replace "event_" ""
    let ud1 := setUD ud "event_id" (.str event_id)
    let events : List EventL := match lookupUD ud1 "events" with
      | some (.events l) => l
      | _ => []
    match events.find? (fun e => e.id == event_id) with
    | none => ("Evento non trovato. Riprova.", ud1, CONV_END)
    | some e =>
      ("Hai selezionato: " ++ e.summary,
        setUD ud1 "selected_event" (.eventL e), CALENDAR_EVENT_UPDATE)

/-- main.update_event_changes (lines 389-429).  The calendar adapter call is
abstracted by its outcome `updRes`; the extraction failure path and both
adapter outcomes clear the session, while the missing-event-id early return
ends without clearing (as in the code). -/
def update_event_changes_h (clientOk : Bool)
    (parseDate : String → Option Nat) (raw : Option RawUpdate)
    (updRes : Bool × String) (ud : List (String × SVal)) :
    String × List (String × SVal) × Int :=
  let event_id : String := match lookupUD ud "event_id" with
    | some (.str s) => s
    | _ => ""
  if event_id = "" then
    ("Errore: ID evento mancante. Riprova.", ud, CONV_END)
  else
    match parse_event_update_request clientOk parseDate raw event_id with
    | .inl msg => ("Errore: " ++ msg, [], CONV_END)
    | .inr _ => ((if updRes.1 then "✅ " else "❌ ") ++ updRes.2, [], CONV_END)

/-- main.delete_event_confirmation (lines 495-513): report the delete
adapter's outcome `delRes` and clear the session unconditionally. -/
def delete_event_confirmation_h (delRes : Bool × String)
    (_ud : List (String × SVal)) : String × List (String × SVal) × Int :=
  ((if delRes.1 then "✅ " else "❌ ") ++ delRes.2, [], CONV_END)

/-- Claim C6: for every parse function the comma-normalized amount text
parses exactly as the dot-separated form of the same text (the two strings
are equal), the normalization is idempotent, and concretely "12,50"
normalizes to "12.50". -/
theorem amount_normalization (parse : String → Option Int) (s : String) :
    parse (normalizeAmount s) = parse (dotSeparatorForm s)
    ∧ normalizeAmount (normalizeAmount s) = normalizeAmount s
    ∧ normalizeAmount "12,50" = "12.50" := by
  refine ⟨rfl, ?_, by decide⟩
  have hf : ∀ c : Char,
      (if (if c = ',' then '.' else c) = ',' then '.'
        else if c = ',' then '.' else c) = if c = ',' then '.' else c := by
    intro c
    by_cases hc : c = ',' <;> simp [hc]
  unfold normalizeAmount
  rw [List.map_map]
  congr 1
  exact List.map_congr_left (fun a _ => hf a)

/-- Claim C7: the terminal handlers of all four flows — the expense commit,
the universal `/cancel` fallback, the add-event confirm/cancel callback, the
update-flow cancel callback, the update commit (extraction failure or
adapter outcome, given a stored event id) and the delete commit — all leave
the session scratch dictionary empty, whatever the adapter outcomes. -/
theorem flows_clear_session (ud : List (String × SVal)) (sheetOk : Bool)
    (q : String) (createRes updRes delRes : Bool × String) (clientOk : Bool)
    (parseDate : String → Option Nat) (raw : Option RawUpdate) (eid : String)
    (hid : lookupUD ud "event_id" = some (.str eid)) (hne : eid ≠ "") :
    (add_expense_end_h sheetOk ud).2.1 = []
    ∧ (cancel_h ud).2.1 = []
    ∧ (add_event_confirmation_h q createRes ud).2.1 = []
    ∧ (update_event_selection_h "event_cancel" ud).2.1 = []
    ∧ (update_event_changes_h clientOk parseDate raw updRes ud).2.1 = []
    ∧ (delete_event_confirmation_h delRes ud).2.1 = [] := by
  refine ⟨rfl, rfl, ?_, rfl, ?_, rfl⟩
  · by_cases hq : q = "event_cancel" <;>
      by_cases hc : createRes.1 <;>
      simp [add_event_confirmation_h, hq, hc]
  · simp only [update_event_changes_h, hid]
    rw [if_neg hne]
    split <;> rfl

/-- Claim C7, witness: the six terminal handlers at a concrete session
holding a stored event id "abc". -/
theorem flows_clear_session_witness :
    (add_expense_end_h true [("event_id", SVal.str "abc")]).2.1 = []
    ∧ (cancel_h [("event_id", SVal.str "abc")]).2.1 = []
    ∧ (add_event_confirmation_h "event_confirm" (true, "x")
        [("event_id", SVal.str "abc")]).2.1 = []
    ∧ (update_event_selection_h "event_cancel"
        [("event_id", SVal.str "abc")]).2.1 = []
    ∧ (update_event_changes_h true (fun _ => none) none (true, "y")
        [("event_id", SVal.str "abc")]).2.1 = []
    ∧ (delete_event_confirmation_h (true, "z")
        [("event_id", SVal.str "abc")]).2.1 = [] :=
  flows_clear_session [("event_id", SVal.str "abc")] true "event_confirm"
    (true, "x") (true, "y") (true, "z") true (fun _ => none) none "abc"
    rfl (by decide)
